import Mathlib

/-!
Verification of the pycont C3000 syringe-pump controller.

This file shallowly embeds the protocol/controller core of the pycont
repository (src/pycont/dtprotocol.py, src/pycont/pump_protocol.py,
src/pycont/controller.py) in Lean 4 and settles the claims of the
specification against it.

Modelling conventions:
* Python `float` volumes are read as exact rationals (`ℚ`), as the
  numerical claims request an exact-arithmetic reading.
* Python `round` (banker's rounding, round-half-to-even) is `pyRound`.
* Python exceptions are the error side of `Except PyErr`.
* Python `bytes` are `List Nat`, Python `str` is `List Char`.
* Serial-device interaction is modelled by an oracle `Device` holding the
  live values the pump reports (plunger position, top velocity, status
  byte, valve position); every bus transaction appends the written packet
  to a log.  The retry loop of `write_and_read_from_pump` collapses to its
  first iteration because the oracle always answers.
-/

namespace Pycont

/-! ## Python primitives -/

/-- Python 3 `round` on an exact rational: round half to even. -/
def pyRound (q : ℚ) : ℤ :=
  if q - ⌊q⌋ < 1/2 then ⌊q⌋
  else if 1/2 < q - ⌊q⌋ then ⌊q⌋ + 1
  else if ⌊q⌋ % 2 = 0 then ⌊q⌋ else ⌊q⌋ + 1

/-- Python `str.lower` on a single character (ASCII). -/
def pyLower (c : Char) : Char := c.toLower

/-! ## Module-level constants (src/pycont/controller.py, top of file) -/

def MICRO_STEP_MODE_0 : ℕ := 0
def MICRO_STEP_MODE_2 : ℕ := 2
def N_STEP_MICRO_STEP_MODE_0 : ℤ := 3000
def N_STEP_MICRO_STEP_MODE_2 : ℤ := 24000
def MAX_TOP_VELOCITY_MICRO_STEP_MODE_0 : ℤ := 6000
def MAX_TOP_VELOCITY_MICRO_STEP_MODE_2 : ℤ := 48000
def MAX_REPEAT_WRITE_AND_READ : ℕ := 10
def MAX_REPEAT_OPERATION : ℕ := 10

/-- The Python exceptions raised by the embedded code.
`timeout` is `PumpIOTimeOutError`, `repeatedError` is
`ControllerRepeatedError`, `hwError` is `PumpHWError` (carrying the
lower-cased error code and the pump name, as set in
`PumpHWError.__init__`), `valueError` is `ValueError`, `indexError` is
the `IndexError` escaping `DTStatus.decode`, and `diverges` marks a
polling loop that would never exit under the memoryless device oracle. -/
inductive PyErr where
  | timeout : PyErr
  | repeatedError : String → PyErr
  | hwError : Char → String → PyErr
  | valueError : PyErr
  | indexError : PyErr
  | diverges : PyErr
  deriving DecidableEq, Repr

/-- The immutable per-pump configuration set up by `C3000Controller.__init__`:
name, total volume (ml), step count fixed by the microstep mode, derived
`steps_per_ml`, and the default top velocity. -/
structure C3000Params where
  name : String
  micro_step_mode : ℕ
  number_of_steps : ℤ
  total_volume : ℚ
  steps_per_ml : ℤ
  default_top_velocity : ℤ
  deriving DecidableEq, Repr

/-- Embedding of `C3000Controller.__init__`: microstep mode selects the step count
(mode 0 → 3000, mode 2 → 24000, anything else raises `ValueError`), and
`steps_per_ml = int(number_of_steps / total_volume)` (truncation toward
zero; for positive operands this is the floor). -/
def C3000Controller.init (name : String) (total_volume : ℚ)
    (micro_step_mode : ℕ) (top_velocity : ℤ) : Except PyErr C3000Params :=
  if micro_step_mode = MICRO_STEP_MODE_0 then
    Except.ok { name := name, micro_step_mode := micro_step_mode,
                number_of_steps := N_STEP_MICRO_STEP_MODE_0,
                total_volume := total_volume,
                steps_per_ml := ⌊(N_STEP_MICRO_STEP_MODE_0 : ℚ) / total_volume⌋,
                default_top_velocity := top_velocity }
  else if micro_step_mode = MICRO_STEP_MODE_2 then
    Except.ok { name := name, micro_step_mode := micro_step_mode,
                number_of_steps := N_STEP_MICRO_STEP_MODE_2,
                total_volume := total_volume,
                steps_per_ml := ⌊(N_STEP_MICRO_STEP_MODE_2 : ℚ) / total_volume⌋,
                default_top_velocity := top_velocity }
  else Except.error PyErr.valueError

/-- Embedding of `C3000Controller.volume_to_step`: `int(round(volume_in_ml * steps_per_ml))`. -/
def volume_to_step (P : C3000Params) (volume_in_ml : ℚ) : ℤ :=
  pyRound (volume_in_ml * P.steps_per_ml)

/-- Embedding of `C3000Controller.step_to_volume`: `step / float(steps_per_ml)`. -/
def step_to_volume (P : C3000Params) (step : ℤ) : ℚ :=
  (step : ℚ) / P.steps_per_ml

/-- A concrete pump descriptor used by witnesses: 5 ml syringe in
microstep mode 2, hence 24000 steps and `steps_per_ml = 4800`; exactly
the descriptor `C3000Controller.init` builds for these arguments. -/
def samplePump : C3000Params :=
  { name := "pump1", micro_step_mode := 2, number_of_steps := 24000,
    total_volume := 5, steps_per_ml := 4800, default_top_velocity := 6000 }

/-! ## Frame codec (src/pycont/dtprotocol.py)

Python `bytes` are `List Nat`; `str.encode()` / `bytes.decode()` are the
standard UTF-8 codec (CPython's strict mode, RFC 3629). -/

/-- UTF-8 encoding of one code point (`str.encode()` per character). -/
def utf8EncodeChar (c : Char) : List Nat :=
  let n := c.toNat
  if n < 0x80 then [n]
  else if n < 0x800 then [0xC0 + n / 0x40, 0x80 + n % 0x40]
  else if n < 0x10000 then
    [0xE0 + n / 0x1000, 0x80 + n / 0x40 % 0x40, 0x80 + n % 0x40]
  else
    [0xF0 + n / 0x40000, 0x80 + n / 0x1000 % 0x40, 0x80 + n / 0x40 % 0x40,
     0x80 + n % 0x40]

/-- Python `str.encode()`: UTF-8 encoding of a string. -/
def strEncode (s : List Char) : List Nat := s.flatMap utf8EncodeChar

/-- Whether a byte is a UTF-8 continuation byte in `[lo, hi]`. -/
def utf8Cont (lo hi b : Nat) : Bool := lo ≤ b && b ≤ hi

/-- Python `bytes.decode()`: strict UTF-8 decoding (RFC 3629 ranges, as
CPython enforces); `none` models a raised `UnicodeDecodeError`. -/
def utf8Decode : List Nat → Option (List Char)
  | [] => some []
  | b1 :: rest =>
    if b1 < 0x80 then
      (utf8Decode rest).map (fun cs => Char.ofNat b1 :: cs)
    else if 0xC2 ≤ b1 && b1 ≤ 0xDF then
      match rest with
      | b2 :: rest2 =>
        if utf8Cont 0x80 0xBF b2 then
          (utf8Decode rest2).map
            (fun cs => Char.ofNat ((b1 - 0xC0) * 0x40 + (b2 - 0x80)) :: cs)
        else none
      | [] => none
    else if 0xE0 ≤ b1 && b1 ≤ 0xEF then
      match rest with
      | b2 :: b3 :: rest3 =>
        let lo2 := if b1 = 0xE0 then 0xA0 else 0x80
        let hi2 := if b1 = 0xED then 0x9F else 0xBF
        if utf8Cont lo2 hi2 b2 && utf8Cont 0x80 0xBF b3 then
          (utf8Decode rest3).map
            (fun cs => Char.ofNat
              ((b1 - 0xE0) * 0x1000 + (b2 - 0x80) * 0x40 + (b3 - 0x80)) :: cs)
        else none
      | _ => none
    else if 0xF0 ≤ b1 && b1 ≤ 0xF4 then
      match rest with
      | b2 :: b3 :: b4 :: rest4 =>
        let lo2 := if b1 = 0xF0 then 0x90 else 0x80
        let hi2 := if b1 = 0xF4 then 0x8F else 0xBF
        if utf8Cont lo2 hi2 b2 && utf8Cont 0x80 0xBF b3 && utf8Cont 0x80 0xBF b4 then
          (utf8Decode rest4).map
            (fun cs => Char.ofNat ((b1 - 0xF0) * 0x40000 + (b2 - 0x80) * 0x1000
              + (b3 - 0x80) * 0x40 + (b4 - 0x80)) :: cs)
        else none
      | _ => none
    else none

/-- DTStart marker `'/'`. -/
def DTStart : Char := '/'

/-- DTStop marker `'\r'`. -/
def DTStop : Char := '\x0d'

/-- Embedding of `DTCommand`: opcode bytes plus optional operand bytes,
both already encoded as in `DTCommand.__init__`. -/
structure DTCommand where
  command : List Nat
  operand : Option (List Nat)
  deriving DecidableEq, Repr

/-- Construction `DTCommand(command, operand)`: both arguments are
Python strings, encoded on construction. -/
def DTCommand.make (command : String) (operand : Option String) : DTCommand :=
  { command := strEncode command.toList,
    operand := operand.map (fun o => strEncode o.toList) }

/-- Embedding of `DTCommand.to_array` / `to_string`: opcode bytes then
operand bytes (nothing when the operand is `None`). -/
def DTCommand.to_string (c : DTCommand) : List Nat :=
  c.command ++ (match c.operand with | some o => o | none => [])

/-- Embedding of `DTInstructionPacket`: an address (encoded from a string in
`__init__`) and an ordered list of commands. -/
structure DTInstructionPacket where
  address : List Nat
  dtcommands : List DTCommand
  deriving DecidableEq, Repr

/-- Construction `DTInstructionPacket(address, dtcommands)`. -/
def DTInstructionPacket.make (address : String) (dtcommands : List DTCommand) :
    DTInstructionPacket :=
  { address := strEncode address.toList, dtcommands := dtcommands }

/-- Embedding of `DTInstructionPacket.to_array` / `to_string`:
`DTStart + address + (each command's bytes, concatenated in order) + DTStop`. -/
def DTInstructionPacket.to_string (p : DTInstructionPacket) : List Nat :=
  strEncode [DTStart] ++ p.address
    ++ p.dtcommands.foldl (fun acc c => acc ++ c.to_string) []
    ++ strEncode [DTStop]

/-- Python `str.isspace`, the set of characters `str.rstrip()` removes:
per CPython these are the code points with bidirectional class WS, B or S
or general category Zs — U+0009..U+000D, U+001C..U+001F, U+0020, U+0085,
U+00A0, U+1680, U+2000..U+200A, U+2028, U+2029, U+202F, U+205F and
U+3000. -/
def pyIsSpace (c : Char) : Bool :=
  let n := c.toNat
  (0x09 ≤ n && n ≤ 0x0D) || (0x1C ≤ n && n ≤ 0x1F) || n = 0x20 ||
    n = 0x85 || n = 0xA0 || n = 0x1680 ||
    (0x2000 ≤ n && n ≤ 0x200A) || n = 0x2028 || n = 0x2029 ||
    n = 0x202F || n = 0x205F || n = 0x3000

/-- Python `s.rstrip(chars)`: drop trailing characters satisfying `p`. -/
def rstripWhile (p : Char → Bool) (s : List Char) : List Char :=
  (s.reverse.dropWhile p).reverse

/-- Python `s.lstrip(chars)`: drop leading characters satisfying `p`. -/
def lstripWhile (p : Char → Bool) (s : List Char) : List Char :=
  s.dropWhile p

/-- Embedding of `DTStatus.__init__`: decode the raw response bytes as text;
`none` records the swallowed `UnicodeDecodeError` (`self.response = None`). -/
def DTStatus.responseOf (response : List Nat) : Option (List Char) :=
  utf8Decode response

/-- Stripping stage of `DTStatus.decode`:
`self.response.rstrip().rstrip('\x03').lstrip(DTStart)`. -/
def DTStatus.info (r : List Char) : List Char :=
  lstripWhile (fun c => c = DTStart)
    (rstripWhile (fun c => c = '\x03') (rstripWhile pyIsSpace r))

/-- Embedding of `DTStatus.decode`: on undecodable input return `None`
(modelled `.ok none`, the soft failure); otherwise strip (see
`DTStatus.info`), then read `info[0]` (address), `info[1]` (status) and
`info[2:]` (payload). The `try/except IndexError` around the subscripts
is commented out in the source, so on a stripped text shorter than 2
characters the subscript raises `IndexError`
(modelled `.error .indexError`). -/
def DTStatus.decode (response : Option (List Char)) :
    Except PyErr (Option (Char × Char × List Char)) :=
  match response with
  | none => Except.ok none
  | some r =>
    match DTStatus.info r with
    | a :: s :: d => Except.ok (some (a, s, d))
    | _ => Except.error PyErr.indexError

/-- Full decoding pipeline `DTStatus(response).decode()` on raw bytes. -/
def DTStatus.decodeBytes (response : List Nat) :
    Except PyErr (Option (Char × Char × List Char)) :=
  DTStatus.decode (DTStatus.responseOf response)

/-! ## Pump protocol (src/pycont/pump_protocol.py) -/

def CMD_EXECUTE : String := "R"
def CMD_INITIALIZE_VALVE_RIGHT : String := "Z"
def CMD_INITIALIZE_VALVE_LEFT : String := "Y"
def CMD_INITIALIZE_NO_VALVE : String := "W"
def CMD_INITIALIZE_VALVE_ONLY : String := "w"
def CMD_MICROSTEPMODE : String := "N"
def CMD_MOVE_TO : String := "A"
def CMD_PUMP : String := "P"
def CMD_DELIVER : String := "D"
def CMD_TOPVELOCITY : String := "V"
def CMD_TERMINATE : String := "T"
def CMD_VALVE_INPUT : String := "I"
def CMD_VALVE_OUTPUT : String := "O"
def CMD_VALVE_BYPASS : String := "B"
def CMD_VALVE_EXTRA : String := "E"
def CMD_REPORT_STATUS : String := "Q"
def CMD_REPORT_PLUNGER_POSITION : String := "?"
def CMD_REPORT_PEAK_VELOCITY : String := "?2"
def CMD_REPORT_VALVE_POSITION : String := "?6"
def CMD_REPORT_INTIALIZED : String := "?19"

/-- Status byte `'\x60'` (backtick): idle, error-free. -/
def STATUS_IDLE_ERROR_FREE : Char := Char.ofNat 0x60

/-- Status byte `'@'`: busy, error-free. -/
def STATUS_BUSY_ERROR_FREE : Char := '@'

/-- Tuple `ERROR_STATUSES_IDLE`: the 8 idle-variant hardware-error codes. -/
def ERROR_STATUSES_IDLE : List Char := ['a', 'b', 'c', 'f', 'g', 'i', 'j', 'k']

/-- Tuple `ERROR_STATUSES_BUSY`: the 8 busy-variant hardware-error codes. -/
def ERROR_STATUSES_BUSY : List Char := ['A', 'B', 'C', 'F', 'G', 'I', 'J', 'K']

/-- Embedding of `PumpHWError.__init__`: stores the pump name and the
lower-cased error code. -/
def PumpHWError.make (error_code : Char) (pump : String) : PyErr :=
  PyErr.hwError (pyLower error_code) pump

/-- Embedding of `C3000Protocol`: holds the address this protocol talks to. -/
structure C3000Protocol where
  address : String
  deriving DecidableEq, Repr

/-- Argument passed to `forge_packet`: the Python parameter accepts either
a single `DTCommand` or a list of them (`type(dtcommands) == DTCommand`
check). The list case is a mutable Python list aliased with the caller. -/
inductive DTCommandsArg where
  | single : DTCommand → DTCommandsArg
  | list : List DTCommand → DTCommandsArg
  deriving DecidableEq, Repr

/-- Embedding of `C3000Protocol.forge_packet`. A single command is wrapped
in a fresh list; `execute` appends `CMD_EXECUTE` via `list.append`, which
mutates the list in place — for the list case that list is the caller's
own object, so the second component returns the argument as the caller
observes it after the call. -/
def C3000Protocol.forge_packet (proto : C3000Protocol)
    (dtcommands : DTCommandsArg) (execute : Bool) :
    DTInstructionPacket × DTCommandsArg :=
  match dtcommands with
  | DTCommandsArg.single c =>
    let fresh := if execute then [c] ++ [DTCommand.make CMD_EXECUTE none] else [c]
    (DTInstructionPacket.make proto.address fresh, DTCommandsArg.single c)
  | DTCommandsArg.list cs =>
    let cs' := if execute then cs ++ [DTCommand.make CMD_EXECUTE none] else cs
    (DTInstructionPacket.make proto.address cs', DTCommandsArg.list cs')

/-- Embedding of `C3000Protocol.forge_pump_packet`:
`DTCommand(CMD_PUMP, str(operand_value))`, execute appended. -/
def C3000Protocol.forge_pump_packet (proto : C3000Protocol)
    (operand_value : ℤ) : DTInstructionPacket :=
  (proto.forge_packet
    (DTCommandsArg.single (DTCommand.make CMD_PUMP (some (toString operand_value))))
    true).1

/-- Embedding of `C3000SwitchToAddress` (src/pycont/controller.py): maps the
physical address-switch position to the bus address character. -/
def C3000SwitchToAddress : List (String × String) :=
  [("0", "1"), ("1", "2"), ("2", "3"), ("3", "4"), ("4", "5"), ("5", "6"),
   ("6", "7"), ("7", "8"), ("8", "9"), ("9", ":"), ("A", ";"), ("B", "<"),
   ("C", "="), ("D", ">"), ("E", "?"), ("BROADCAST", "_")]

/-- Number of Execute commands (`DTCommand(CMD_EXECUTE)`) in a packet. -/
def countExecute (p : DTInstructionPacket) : ℕ :=
  p.dtcommands.count (DTCommand.make CMD_EXECUTE none)

/-- The pump-command `DTCommand` with operand `"1200"`, used by the
packet-encoding scenarios. -/
def pumpCmd1200 : DTCommand :=
  DTCommand.make CMD_PUMP (some (toString (1200 : ℤ)))

/-! ## Bus transport (class `PumpIO`, src/pycont/controller.py) -/

/-- State of a `PumpIO` bus: whether `self.lock` is held, the stale
inbound buffer, and the bytes written so far (the serial line). -/
structure PumpIOState where
  lockHeld : Bool
  inputBuffer : List Nat
  written : List (List Nat)
  deriving DecidableEq, Repr

/-- Embedding of `PumpIO.readline`: `line` is what `serial.readline()`
returns before the timeout elapses; an empty read means the timeout was
hit and `PumpIOTimeOutError` is raised. -/
def PumpIO.readline (line : List Nat) : Except PyErr (List Nat) :=
  if line ≠ [] then Except.ok line else Except.error PyErr.timeout

/-- Embedding of `PumpIO.write_and_readline`: acquire the lock, flush the
input buffer, write the packet, then read a line; on success release the
lock and return the response, and on `PumpIOTimeOutError` release the
lock and re-raise.  The state is returned on both paths so the lock can
be observed after the call. -/
def PumpIO.write_and_readline (packet : DTInstructionPacket)
    (line : List Nat) (s : PumpIOState) :
    Except PyErr (List Nat) × PumpIOState :=
  let s1 : PumpIOState := { s with lockHeld := true }
  let s2 : PumpIOState := { s1 with inputBuffer := [] }
  let s3 : PumpIOState := { s2 with written := s2.written ++ [packet.to_string] }
  match PumpIO.readline line with
  | Except.ok response => (Except.ok response, { s3 with lockHeld := false })
  | Except.error err => (Except.error err, { s3 with lockHeld := false })

/-! ## Controller interaction model (class `C3000Controller`)

The serial device is an oracle holding the live values the pump reports;
a transaction appends the forged packet to a log and lets the device
update.  `write_and_read_from_pump`'s retry loop collapses to its first
iteration because the oracle always responds with a decodable answer. -/

/-- Valve-position name `VALVE_INPUT`. -/
def VALVE_INPUT : Char := 'I'
/-- Valve-position name `VALVE_OUTPUT`. -/
def VALVE_OUTPUT : Char := 'O'
/-- Valve-position name `VALVE_BYPASS`. -/
def VALVE_BYPASS : Char := 'B'
/-- Valve-position name `VALVE_EXTRA`. -/
def VALVE_EXTRA : Char := 'E'
/-- The `VALVE_6WAY_LIST` positions. -/
def VALVE_6WAY_LIST : List Char := ['1', '2', '3', '4', '5', '6']

/-- The semantic content of each forged `DTInstructionPacket` the
controller writes: one constructor per `forge_*` call site used by the
embedded operations. -/
inductive Packet where
  | reportStatus : Packet
  | reportPlunger : Packet
  | reportVelocity : Packet
  | reportValve : Packet
  | setVelocity : ℤ → Packet
  | pump : ℤ → Packet
  | deliver : ℤ → Packet
  | moveTo : ℤ → Packet
  | valve : Char → Packet
  | valve6 : Char → Packet
  deriving DecidableEq, Repr

/-- The device oracle: the live values a C3000 pump reports.  The status
byte and `appliesVelocity` are fixed behaviours of the device under test;
plunger, velocity and valve react to motion/set commands. -/
structure Device where
  plunger : ℤ
  topVelocity : ℤ
  status : Char
  valve : Char
  appliesVelocity : Bool
  deriving DecidableEq, Repr

/-- How the device state reacts to a written packet: motion commands move
the plunger by the commanded steps, a velocity command takes effect when
the device applies it, valve commands select the (lower-case raw) valve
position, and report commands change nothing. -/
def Device.step (d : Device) : Packet → Device
  | Packet.setVelocity v => if d.appliesVelocity then { d with topVelocity := v } else d
  | Packet.pump s => { d with plunger := d.plunger + s }
  | Packet.deliver s => { d with plunger := d.plunger - s }
  | Packet.moveTo s => { d with plunger := s }
  | Packet.valve c => { d with valve := pyLower c }
  | Packet.valve6 p => { d with valve := p }
  | _ => d

/-- A controller run's world: the device oracle plus the log of packets
written to the bus (each entry is one write-and-read transaction). -/
structure World where
  dev : Device
  log : List Packet
  deriving DecidableEq, Repr

/-- A concrete healthy device used by witnesses and counterexamples:
plunger at 0 (syringe empty), top velocity 6000, idle error-free status,
valve at input, velocity commands applied. -/
def idleDevice : Device :=
  { plunger := 0, topVelocity := 6000, status := STATUS_IDLE_ERROR_FREE,
    valve := 'i', appliesVelocity := true }

/-- The world at the start of a concrete run: healthy device, empty log. -/
def startWorld : World := { dev := idleDevice, log := [] }

/-- The controller's effect monad: state threading with Python
exceptions.  The world is returned on the raise path too, so the packets
written before an exception stay observable. -/
def M (α : Type) : Type := World → Except PyErr α × World

/-- Run a controller computation on a world. -/
def M.run {α : Type} (x : M α) (w : World) : Except PyErr α × World := x w

instance : Monad M where
  pure a := fun w => (Except.ok a, w)
  bind x f := fun w =>
    match x w with
    | (Except.ok a, w') => f a w'
    | (Except.error e, w') => (Except.error e, w')

instance : MonadStateOf World M where
  get := fun w => (Except.ok w, w)
  set w' := fun _ => (Except.ok PUnit.unit, w')
  modifyGet f := fun w =>
    match f w with
    | (a, w') => (Except.ok a, w')

instance : MonadExceptOf PyErr M where
  throw e := fun w => (Except.error e, w)
  tryCatch x handle := fun w =>
    match x w with
    | (Except.error e, w') => handle e w'
    | other => other

/-- One bus transaction (`write_and_read_from_pump` with the forged
packet): log the packet and let the device react.  The response is read
back by the caller from the (updated) device state. -/
def transact (p : Packet) : M Unit :=
  modify (fun w => { dev := w.dev.step p, log := w.log ++ [p] })

/-- Embedding of `C3000Controller.get_plunger_position`: transact the
report-plunger-position packet and parse the payload (the device's live
plunger position). -/
def get_plunger_position : M ℤ := do
  transact Packet.reportPlunger
  let w ← get
  pure w.dev.plunger

/-- Property `C3000Controller.remaining_steps`:
`number_of_steps - current_steps` (a live query). -/
def remaining_steps (P : C3000Params) : M ℤ := do
  let cur ← get_plunger_position
  pure (P.number_of_steps - cur)

/-- Embedding of `C3000Controller.get_volume`:
`step_to_volume(get_plunger_position())`. -/
def get_volume (P : C3000Params) : M ℚ := do
  let pos ← get_plunger_position
  pure (step_to_volume P pos)

/-- Property `C3000Controller.remaining_volume`:
`total_volume - current_volume` (a live query). -/
def remaining_volume (P : C3000Params) : M ℚ := do
  let cv ← get_volume P
  pure (P.total_volume - cv)

/-- Embedding of `C3000Controller.is_idle`: transact the report-status
packet, then map the status byte: idle-error-free → `True`,
busy-error-free → `False`, an error status (busy or idle variant) →
raise `PumpHWError(status, name)`, anything else → raise `ValueError`. -/
def is_idle (P : C3000Params) : M Bool := do
  transact Packet.reportStatus
  let w ← get
  let status := w.dev.status
  if status = STATUS_IDLE_ERROR_FREE then pure true
  else if status = STATUS_BUSY_ERROR_FREE then pure false
  else if status ∈ ERROR_STATUSES_BUSY then throw (PumpHWError.make status P.name)
  else if status ∈ ERROR_STATUSES_IDLE then throw (PumpHWError.make status P.name)
  else throw PyErr.valueError

/-- The branch map of `is_idle` as a pure function of the status byte
(used to factor the proofs about `is_idle`): the same if/elif chain the
source applies to the decoded status. -/
def isIdleResult (P : C3000Params) (status : Char) : Except PyErr Bool :=
  if status = STATUS_IDLE_ERROR_FREE then Except.ok true
  else if status = STATUS_BUSY_ERROR_FREE then Except.ok false
  else if status ∈ ERROR_STATUSES_BUSY then
    Except.error (PumpHWError.make status P.name)
  else if status ∈ ERROR_STATUSES_IDLE then
    Except.error (PumpHWError.make status P.name)
  else Except.error PyErr.valueError

/-- Embedding of `C3000Controller.is_busy`: `not is_idle()`. -/
def is_busy (P : C3000Params) : M Bool := do
  let idle ← is_idle P
  pure (!idle)

/-- Embedding of `C3000Controller.wait_until_idle`:
`while is_busy(): sleep(0.1)`.  The oracle's status byte is constant, so
the loop exits iff the first poll reports idle; a busy first poll would
poll forever, modelled by raising the explicit `diverges` marker. -/
def wait_until_idle (P : C3000Params) : M Unit := do
  let busy ← is_busy P
  if busy then throw PyErr.diverges else pure ()

/-- Embedding of `C3000Controller.get_top_velocity`: transact the
report-peak-velocity packet and parse the payload. -/
def get_top_velocity : M ℤ := do
  transact Packet.reportVelocity
  let w ← get
  pure w.dev.topVelocity

/-- Embedding of `C3000Controller.check_top_velocity_within_range`: mode 0
allows `[1, 6000]`, mode 2 allows `[1, 48000]`; out of range raises
`ValueError`.  (For any other mode the Python body would hit an unbound
`max_range`; descriptors built by `C3000Controller.init` exclude it.) -/
def check_top_velocity_within_range (P : C3000Params) (top_velocity : ℤ) :
    M Bool := do
  let max_range ←
    if P.micro_step_mode = MICRO_STEP_MODE_0 then
      pure MAX_TOP_VELOCITY_MICRO_STEP_MODE_0
    else if P.micro_step_mode = MICRO_STEP_MODE_2 then
      pure MAX_TOP_VELOCITY_MICRO_STEP_MODE_2
    else throw PyErr.valueError
  if 1 ≤ top_velocity ∧ top_velocity ≤ max_range then pure true
  else throw PyErr.valueError

/-- Embedding of `C3000Controller.set_top_velocity`: up to `max_repeat`
rounds of { read the velocity; if it matches return `True`; check the
range; write the set-velocity packet; if not `secure` return `True` };
exhaustion raises `ControllerRepeatedError`. -/
def set_top_velocity (P : C3000Params) (top_velocity : ℤ) :
    ℕ → Bool → M Bool
  | 0, _ => throw (PyErr.repeatedError P.name)
  | n + 1, secure => do
    let cur ← get_top_velocity
    if cur = top_velocity then pure true
    else do
      let _ ← check_top_velocity_within_range P top_velocity
      transact (Packet.setVelocity top_velocity)
      if secure = false then pure true
      else set_top_velocity P top_velocity n secure

/-- Embedding of `C3000Controller.ensure_default_top_velocity`: set the
default top velocity only when the read-back differs from it. -/
def ensure_default_top_velocity (P : C3000Params) (secure : Bool) : M Unit := do
  let cur ← get_top_velocity
  if cur ≠ P.default_top_velocity then do
    let _ ← set_top_velocity P P.default_top_velocity MAX_REPEAT_OPERATION secure
    pure ()
  else pure ()

/-- Embedding of `C3000Controller.get_raw_valve_position`: transact the
report-valve-position packet and return the raw payload. -/
def get_raw_valve_position : M Char := do
  transact Packet.reportValve
  let w ← get
  pure w.dev.valve

/-- Embedding of `C3000Controller.get_valve_position`: up to `max_repeat`
raw reads, mapping `'i'/'o'/'b'/'e'` to the named positions and a 6-way
digit to itself; exhaustion raises `ValueError`. -/
def get_valve_position (P : C3000Params) : ℕ → M Char
  | 0 => throw PyErr.valueError
  | n + 1 => do
    let raw ← get_raw_valve_position
    if raw = 'i' then pure VALVE_INPUT
    else if raw = 'o' then pure VALVE_OUTPUT
    else if raw = 'b' then pure VALVE_BYPASS
    else if raw = 'e' then pure VALVE_EXTRA
    else if raw ∈ VALVE_6WAY_LIST then pure raw
    else get_valve_position P n

/-- Embedding of `C3000Controller.set_valve_position`: up to `max_repeat`
rounds of { read the valve position; if it matches return `True`; forge
the matching valve-select packet (unknown positions raise `ValueError`);
write it; if not `secure` return `True`; wait until idle }; exhaustion
raises `ControllerRepeatedError`. -/
def set_valve_position (P : C3000Params) (valve_position : Char) :
    ℕ → Bool → M Bool
  | 0, _ => throw (PyErr.repeatedError P.name)
  | n + 1, secure => do
    let cur ← get_valve_position P MAX_REPEAT_OPERATION
    if cur = valve_position then pure true
    else do
      let pkt ←
        if valve_position = VALVE_INPUT then pure (Packet.valve 'I')
        else if valve_position = VALVE_OUTPUT then pure (Packet.valve 'O')
        else if valve_position = VALVE_BYPASS then pure (Packet.valve 'B')
        else if valve_position = VALVE_EXTRA then pure (Packet.valve 'E')
        else if valve_position ∈ VALVE_6WAY_LIST then
          pure (Packet.valve6 valve_position)
        else throw PyErr.valueError
      transact pkt
      if secure = false then pure true
      else do
        wait_until_idle P
        set_valve_position P valve_position n secure

/-- Embedding of `C3000Controller.is_volume_pumpable`:
`volume_to_step(v) ≤ remaining_steps`. -/
def is_volume_pumpable (P : C3000Params) (volume_in_ml : ℚ) : M Bool := do
  let steps := volume_to_step P volume_in_ml
  let rem ← remaining_steps P
  pure (steps ≤ rem)

/-- Embedding of `C3000Controller.pump`: when the volume is pumpable, set
the requested speed (or ensure the default), optionally select the source
valve, write the pump command, optionally wait until idle, and return
`True`; otherwise return `False` straight away. -/
def pump (P : C3000Params) (volume_in_ml : ℚ) (from_valve : Option Char)
    (speed_in : Option ℤ) (wait : Bool) (secure : Bool) : M Bool := do
  let ok ← is_volume_pumpable P volume_in_ml
  if ok then do
    match speed_in with
    | some s => do
      let _ ← set_top_velocity P s MAX_REPEAT_OPERATION secure
      pure ()
    | none => ensure_default_top_velocity P secure
    match from_valve with
    | some fv => do
      let _ ← set_valve_position P fv MAX_REPEAT_OPERATION secure
      pure ()
    | none => pure ()
    let steps_to_pump := volume_to_step P volume_in_ml
    transact (Packet.pump steps_to_pump)
    if wait then wait_until_idle P else pure ()
    pure true
  else pure false

/-- Embedding of `C3000Controller.is_volume_deliverable`:
`volume_to_step(v) ≤ current_steps`. -/
def is_volume_deliverable (P : C3000Params) (volume_in_ml : ℚ) : M Bool := do
  let steps := volume_to_step P volume_in_ml
  let cur ← get_plunger_position
  pure (steps ≤ cur)

/-- Embedding of `C3000Controller.deliver`: when the volume is
deliverable, a zero volume returns `True` immediately; otherwise set the
speed, optionally select the destination valve, write the deliver
command, optionally wait until idle, and return `True`; an undeliverable
volume returns `False`. -/
def deliver (P : C3000Params) (volume_in_ml : ℚ) (to_valve : Option Char)
    (speed_out : Option ℤ) (wait : Bool) (secure : Bool) : M Bool := do
  let ok ← is_volume_deliverable P volume_in_ml
  if ok then do
    if volume_in_ml = 0 then pure true
    else do
      match speed_out with
      | some s => do
        let _ ← set_top_velocity P s MAX_REPEAT_OPERATION secure
        pure ()
      | none => ensure_default_top_velocity P secure
      match to_valve with
      | some tv => do
        let _ ← set_valve_position P tv MAX_REPEAT_OPERATION secure
        pure ()
      | none => pure ()
      let steps_to_deliver := volume_to_step P volume_in_ml
      transact (Packet.deliver steps_to_deliver)
      if wait then wait_until_idle P else pure ()
      pure true
  else pure false

/-- Embedding of `C3000Controller.transfer`: pump
`min(volume, remaining_volume)` from the source valve (wait=True), deliver
it to the destination valve (wait=True), and recurse on the remainder
while it is positive.  The recursion has no structural measure on `ℚ`, so
`fuel` bounds the number of rounds; `diverges` marks exhaustion and the
claims prove their scenarios terminate within the stated fuel. -/
def transfer (P : C3000Params) : ℕ → ℚ → Char → Char →
    Option ℤ → Option ℤ → M Unit
  | 0, _, _, _, _, _ => throw PyErr.diverges
  | n + 1, volume_in_ml, from_valve, to_valve, speed_in, speed_out => do
    let rem ← remaining_volume P
    let volume_transferred := min volume_in_ml rem
    let _ ← pump P volume_transferred (some from_valve) speed_in true true
    let _ ← deliver P volume_transferred (some to_valve) speed_out true true
    let remaining_volume_to_transfer := volume_in_ml - volume_transferred
    if remaining_volume_to_transfer > 0 then
      transfer P n remaining_volume_to_transfer from_valve to_valve
        speed_in speed_out
    else pure ()

/-- The motion commands (pump/deliver strokes) of a transaction log, with
their step operands. -/
def motionLog (log : List Packet) : List Packet :=
  log.filter (fun p =>
    match p with
    | Packet.pump _ => true
    | Packet.deliver _ => true
    | _ => false)

/-- Decidable check that every motion command in the log is immediately
followed by a status poll (the wait-until-idle that follows it). -/
def motionsAwaited : List Packet → Bool
  | [] => true
  | [p] =>
    match p with
    | Packet.pump _ => false
    | Packet.deliver _ => false
    | _ => true
  | p :: q :: rest =>
    match p with
    | Packet.pump _ => (q = Packet.reportStatus) && motionsAwaited (q :: rest)
    | Packet.deliver _ => (q = Packet.reportStatus) && motionsAwaited (q :: rest)
    | _ => motionsAwaited (q :: rest)

/-! ## Helper lemmas about `pyRound` -/

theorem abs_pyRound_sub_le (q : ℚ) : |(pyRound q : ℚ) - q| ≤ 1/2 := by
  have h0 : (⌊q⌋ : ℚ) ≤ q := Int.floor_le q
  have h1 : q < ⌊q⌋ + 1 := Int.lt_floor_add_one q
  unfold pyRound
  split
  · rw [abs_sub_comm, abs_of_nonneg (by linarith)]
    linarith
  · split
    · push_cast
      rw [abs_of_nonneg (by linarith)]
      linarith
    · split
      · rw [abs_sub_comm, abs_of_nonneg (by linarith)]
        linarith
      · push_cast
        rw [abs_of_nonneg (by linarith)]
        linarith

theorem pyRound_le (q : ℚ) : (pyRound q : ℚ) ≤ q + 1/2 := by
  have := abs_pyRound_sub_le q
  rw [abs_le] at this
  linarith [this.2]

theorem le_pyRound (q : ℚ) : q - 1/2 ≤ (pyRound q : ℚ) := by
  have := abs_pyRound_sub_le q
  rw [abs_le] at this
  linarith [this.1]

/-- An integer bound transfers to `pyRound`: if `q ≤ n` then `pyRound q ≤ n`. -/
theorem pyRound_le_int (q : ℚ) (n : ℤ) (h : q ≤ (n : ℚ)) : pyRound q ≤ n := by
  have h1 : (pyRound q : ℚ) ≤ (n : ℚ) + 1/2 := le_trans (pyRound_le q) (by linarith)
  have h2 : (pyRound q : ℚ) < (n : ℚ) + 1 := lt_of_le_of_lt h1 (by norm_num)
  exact_mod_cast Int.lt_add_one_iff.mp (by exact_mod_cast h2)

theorem pyRound_zero : pyRound 0 = 0 := by
  norm_num [pyRound]

theorem volume_to_step_zero (P : C3000Params) : volume_to_step P 0 = 0 := by
  simp [volume_to_step, pyRound_zero]

/-! ## Evaluation lemmas for the controller monad -/

@[simp] theorem M.run_pure {α : Type} (a : α) (w : World) :
    (pure a : M α).run w = (Except.ok a, w) := rfl

@[simp] theorem M.run_bind {α β : Type} (x : M α) (f : α → M β) (w : World) :
    (x >>= f).run w =
      match x.run w with
      | (Except.ok a, w') => (f a).run w'
      | (Except.error e, w') => (Except.error e, w') := rfl

@[simp] theorem M.run_get (w : World) :
    (get : M World).run w = (Except.ok w, w) := rfl

@[simp] theorem M.run_modify (f : World → World) (w : World) :
    (modify f : M PUnit).run w = (Except.ok PUnit.unit, f w) := rfl

@[simp] theorem M.run_throw {α : Type} (e : PyErr) (w : World) :
    (throw e : M α).run w = (Except.error e, w) := rfl

@[simp] theorem M.run_ite {α : Type} (c : Prop) [Decidable c] (x y : M α)
    (w : World) :
    (if c then x else y).run w = if c then x.run w else y.run w := by
  split <;> rfl

@[simp] theorem M.run_transact (p : Packet) (w : World) :
    (transact p).run w
      = (Except.ok PUnit.unit, { dev := w.dev.step p, log := w.log ++ [p] }) := rfl

/-! ## C6: deliver with volume 0 -/

/-- Counterexample to C6: `deliver(0)` does interact with the device.
Before the zero-volume check, the `is_volume_deliverable` guard runs and
queries the plunger position, so exactly one packet is written to (and
one response read from) the pump during the call, while the claim
demands none. -/
theorem deliver_zero_interaction_counterexample :
    ((deliver samplePump 0 none none false true).run startWorld).2.log
      = [Packet.reportPlunger] ∧
    ((deliver samplePump 0 none none false true).run startWorld).1
      = Except.ok true := by
  have h : (0 : ℤ) ≤ startWorld.dev.plunger := by decide
  constructor <;>
    simp [deliver, is_volume_deliverable, get_plunger_position,
      volume_to_step_zero, h, M.run_bind, M.run_transact, M.run_get,
      M.run_pure, M.run_ite, Device.step, startWorld, idleDevice]

/-- C6 amended: `deliver` called with volume 0 short-circuits to success
(returns `True`) right after the deliverability guard; that guard itself
issues exactly one device transaction (the plunger-position query), and
no velocity, valve or motion command is written.  The device state is
unchanged. -/
theorem deliver_zero_single_query (P : C3000Params) (w : World)
    (to_valve : Option Char) (speed_out : Option ℤ) (wait secure : Bool)
    (h : 0 ≤ w.dev.plunger) :
    (deliver P 0 to_valve speed_out wait secure).run w
      = (Except.ok true, { dev := w.dev, log := w.log ++ [Packet.reportPlunger] }) := by
  simp [deliver, is_volume_deliverable, get_plunger_position,
    volume_to_step_zero, h, M.run_bind, M.run_transact, M.run_get,
    M.run_pure, M.run_ite, Device.step]

/-- Witness for the amended C6 at the concrete healthy pump. -/
theorem deliver_zero_single_query_witness :
    (0 : ℤ) ≤ startWorld.dev.plunger ∧
    (deliver samplePump 0 (some VALVE_OUTPUT) (some 5000) true true).run startWorld
      = (Except.ok true,
         { dev := startWorld.dev, log := [Packet.reportPlunger] }) :=
  ⟨by decide,
    deliver_zero_single_query samplePump startWorld (some VALVE_OUTPUT)
      (some 5000) true true (by decide)⟩

/-! ## C2: pump on a volume exceeding the remaining volume -/

/-- Counterexample to C2: a volume strictly greater than the remaining
volume for which `pump` returns `True` and pumps.  With a 5 ml syringe in
mode 2 (`steps_per_ml = 4800`) and the plunger at 0, the remaining volume
is 5 ml; for `v = 5 + 1/48000` ml the step conversion rounds
`v * 4800 = 24000.1` down to 24000 steps, which passes the
`is_volume_pumpable` guard, so `pump` issues the motion command and
returns `True` — it neither returns `False` nor avoids device writes
(three packets are written). -/
theorem pump_overfull_counterexample :
    ((5 : ℚ) + 1/48000)
        > samplePump.total_volume - step_to_volume samplePump startWorld.dev.plunger ∧
    (pump samplePump ((5 : ℚ) + 1/48000) none none false true).run startWorld
      = (Except.ok true,
         { dev := { idleDevice with plunger := 24000 },
           log := [Packet.reportPlunger, Packet.reportVelocity,
                   Packet.pump 24000] }) := by
  have hsteps : volume_to_step samplePump ((5 : ℚ) + 1/48000) = 24000 := by
    norm_num [volume_to_step, samplePump, pyRound, Int.floor_eq_iff]
  constructor
  · norm_num [samplePump, startWorld, idleDevice, step_to_volume]
  · simp only [pump, is_volume_pumpable, remaining_steps, get_plunger_position,
      ensure_default_top_velocity, get_top_velocity, hsteps,
      M.run_bind, M.run_transact, M.run_get, M.run_pure, M.run_ite,
      Device.step, startWorld, idleDevice]
    norm_num [samplePump]

/-- C2 amended: `pump(v)` returns `False` (it does not raise) whenever the
converted step count exceeds the remaining steps,
`volumeToSteps(v) > remainingSteps` — which, because of rounding, is what
the code checks rather than `v > remainingVolume` — and on that path it
issues exactly one device write, the plunger-position query evaluated by
the guard itself, and no motion, velocity or valve command. -/
theorem pump_unpumpable_returns_false (P : C3000Params) (w : World) (v : ℚ)
    (from_valve : Option Char) (speed_in : Option ℤ) (wait secure : Bool)
    (h : P.number_of_steps - w.dev.plunger < volume_to_step P v) :
    (pump P v from_valve speed_in wait secure).run w
      = (Except.ok false, { dev := w.dev, log := w.log ++ [Packet.reportPlunger] }) := by
  have h' : ¬ (volume_to_step P v ≤ P.number_of_steps - w.dev.plunger) :=
    not_le.mpr h
  simp [pump, is_volume_pumpable, remaining_steps, get_plunger_position, h',
    M.run_bind, M.run_transact, M.run_get, M.run_pure, M.run_ite, Device.step]

/-- Witness for the amended C2: requesting 6 ml from the 5 ml pump
(28800 steps > 24000 remaining) returns `False` after the one
plunger-position query. -/
theorem pump_unpumpable_returns_false_witness :
    samplePump.number_of_steps - startWorld.dev.plunger
        < volume_to_step samplePump 6 ∧
    (pump samplePump 6 (some VALVE_INPUT) (some 5000) true true).run startWorld
      = (Except.ok false,
         { dev := startWorld.dev, log := [Packet.reportPlunger] }) :=
  ⟨by norm_num [volume_to_step, samplePump, startWorld, idleDevice, pyRound,
      Int.floor_eq_iff],
   pump_unpumpable_returns_false samplePump startWorld 6 (some VALVE_INPUT)
     (some 5000) true true
     (by norm_num [volume_to_step, samplePump, startWorld, idleDevice, pyRound,
        Int.floor_eq_iff])⟩

/-! ## C3: transfer chunk decomposition

Run lemmas for the operations `transfer` composes, on a healthy device
(idle status, default velocity already set) starting each round with the
plunger at a known position. -/

/-- Evaluation of `remaining_volume` on an empty syringe. -/
theorem remaining_volume_run (P : C3000Params) (w : World)
    (hpl : w.dev.plunger = 0) :
    (remaining_volume P).run w
      = (Except.ok P.total_volume,
         { dev := w.dev, log := w.log ++ [Packet.reportPlunger] }) := by
  simp [remaining_volume, get_volume, get_plunger_position, step_to_volume,
    hpl, M.run_bind, M.run_transact, M.run_get, M.run_pure, Device.step]

/-- Evaluation of `pump(t, from_valve=VALVE_INPUT, wait=True)` when the
device's valve already sits at input (raw `'i'`): one guard query, one
velocity query, one valve query, the motion command, one status poll. -/
theorem pump_run_valve_matches (P : C3000Params) (w : World) (t : ℚ)
    (htop : w.dev.topVelocity = P.default_top_velocity)
    (hst : w.dev.status = STATUS_IDLE_ERROR_FREE)
    (hv : w.dev.valve = 'i')
    (hguard : volume_to_step P t ≤ P.number_of_steps - w.dev.plunger) :
    (pump P t (some VALVE_INPUT) none true true).run w
      = (Except.ok true,
         { dev := { w.dev with plunger := w.dev.plunger + volume_to_step P t },
           log := w.log ++ [Packet.reportPlunger, Packet.reportVelocity,
             Packet.reportValve, Packet.pump (volume_to_step P t),
             Packet.reportStatus] }) := by
  have h10 : MAX_REPEAT_OPERATION = 9 + 1 := rfl
  simp [pump, is_volume_pumpable, remaining_steps, get_plunger_position,
    ensure_default_top_velocity, get_top_velocity, set_valve_position,
    get_valve_position, get_raw_valve_position, wait_until_idle, is_busy,
    is_idle, h10, htop, hst, hv, hguard, M.run_bind, M.run_transact,
    M.run_get, M.run_pure, M.run_ite, M.run_throw, Device.step,
    VALVE_INPUT, STATUS_IDLE_ERROR_FREE, List.append_assoc]

/-- Evaluation of `pump(t, from_valve=VALVE_INPUT, wait=True)` when the
device's valve sits at output (raw `'o'`): the valve verification loop
additionally issues the valve-select command, a status poll and a
re-read before the motion command. -/
theorem pump_run_valve_switches (P : C3000Params) (w : World) (t : ℚ)
    (htop : w.dev.topVelocity = P.default_top_velocity)
    (hst : w.dev.status = STATUS_IDLE_ERROR_FREE)
    (hv : w.dev.valve = 'o')
    (hguard : volume_to_step P t ≤ P.number_of_steps - w.dev.plunger) :
    (pump P t (some VALVE_INPUT) none true true).run w
      = (Except.ok true,
         { dev := { w.dev with plunger := w.dev.plunger + volume_to_step P t, valve := 'i' },
           log := w.log ++ [Packet.reportPlunger, Packet.reportVelocity,
             Packet.reportValve, Packet.valve 'I', Packet.reportStatus,
             Packet.reportValve, Packet.pump (volume_to_step P t),
             Packet.reportStatus] }) := by
  have h10 : MAX_REPEAT_OPERATION = 9 + 1 := rfl
  have h9 : (9 : ℕ) = 8 + 1 := rfl
  simp [pump, is_volume_pumpable, remaining_steps, get_plunger_position,
    ensure_default_top_velocity, get_top_velocity, set_valve_position,
    get_valve_position, get_raw_valve_position, wait_until_idle, is_busy,
    is_idle, h10, h9, htop, hst, hv, hguard, M.run_bind, M.run_transact,
    M.run_get, M.run_pure, M.run_ite, M.run_throw, Device.step, pyLower,
    VALVE_INPUT, VALVE_OUTPUT, VALVE_BYPASS, VALVE_EXTRA,
    STATUS_IDLE_ERROR_FREE, List.append_assoc]

/-- Evaluation of `deliver(t, to_valve=VALVE_OUTPUT, wait=True)` for a
nonzero deliverable volume when the device's valve sits at input (raw
`'i'`): guard query, velocity query, valve switch (read, select, status
poll, re-read), motion command, status poll. -/
theorem deliver_run_valve_switches (P : C3000Params) (w : World) (t : ℚ)
    (ht : ¬ t = 0)
    (htop : w.dev.topVelocity = P.default_top_velocity)
    (hst : w.dev.status = STATUS_IDLE_ERROR_FREE)
    (hv : w.dev.valve = 'i')
    (hguard : volume_to_step P t ≤ w.dev.plunger) :
    (deliver P t (some VALVE_OUTPUT) none true true).run w
      = (Except.ok true,
         { dev := { w.dev with plunger := w.dev.plunger - volume_to_step P t, valve := 'o' },
           log := w.log ++ [Packet.reportPlunger, Packet.reportVelocity,
             Packet.reportValve, Packet.valve 'O', Packet.reportStatus,
             Packet.reportValve, Packet.deliver (volume_to_step P t),
             Packet.reportStatus] }) := by
  have h10 : MAX_REPEAT_OPERATION = 9 + 1 := rfl
  have h9 : (9 : ℕ) = 8 + 1 := rfl
  simp [deliver, is_volume_deliverable, get_plunger_position,
    ensure_default_top_velocity, get_top_velocity, set_valve_position,
    get_valve_position, get_raw_valve_position, wait_until_idle, is_busy,
    is_idle, h10, h9, ht, htop, hst, hv, hguard, M.run_bind, M.run_transact,
    M.run_get, M.run_pure, M.run_ite, M.run_throw, Device.step, pyLower,
    VALVE_INPUT, VALVE_OUTPUT, VALVE_BYPASS, VALVE_EXTRA,
    STATUS_IDLE_ERROR_FREE, List.append_assoc]

/-- One `transfer` round starting with the valve at input: chunk
`t = min(v, totalVolume)` is pumped and delivered with wait-until-idle,
and the recursion continues on `v - t` with the plunger back at its
starting position and the valve now at output. -/
theorem transfer_round_first (P : C3000Params) (n : ℕ) (v t : ℚ) (w : World)
    (hpl : w.dev.plunger = 0)
    (htop : w.dev.topVelocity = P.default_top_velocity)
    (hst : w.dev.status = STATUS_IDLE_ERROR_FREE)
    (hv : w.dev.valve = 'i')
    (hmin : min v P.total_volume = t) (ht0 : ¬ t = 0)
    (hguard : volume_to_step P t ≤ P.number_of_steps)
    (hgt : v - t > 0) :
    (transfer P (n + 1) v VALVE_INPUT VALVE_OUTPUT none none).run w
      = (transfer P n (v - t) VALVE_INPUT VALVE_OUTPUT none none).run
          { dev := { w.dev with valve := 'o' },
            log := w.log ++ [Packet.reportPlunger,
              Packet.reportPlunger, Packet.reportVelocity, Packet.reportValve,
              Packet.pump (volume_to_step P t), Packet.reportStatus,
              Packet.reportPlunger, Packet.reportVelocity, Packet.reportValve,
              Packet.valve 'O', Packet.reportStatus, Packet.reportValve,
              Packet.deliver (volume_to_step P t), Packet.reportStatus] } := by
  simp only [transfer]
  simp [remaining_volume_run, pump_run_valve_matches,
    deliver_run_valve_switches, hmin, hpl, htop, hst, hv, ht0, hguard, hgt,
    M.run_bind, M.run_ite, M.run_pure, List.append_assoc]
  intro hle
  exfalso
  have ht : t = v := by
    rw [← hmin]
    exact min_eq_left hle
  rw [ht] at hgt
  simp at hgt

/-- One `transfer` round starting with the valve at output (as every
round after the first does): the pump phase additionally switches the
valve back to input before the stroke. -/
theorem transfer_round_later (P : C3000Params) (n : ℕ) (v t : ℚ) (w : World)
    (hpl : w.dev.plunger = 0)
    (htop : w.dev.topVelocity = P.default_top_velocity)
    (hst : w.dev.status = STATUS_IDLE_ERROR_FREE)
    (hv : w.dev.valve = 'o')
    (hmin : min v P.total_volume = t) (ht0 : ¬ t = 0)
    (hguard : volume_to_step P t ≤ P.number_of_steps)
    (hgt : v - t > 0) :
    (transfer P (n + 1) v VALVE_INPUT VALVE_OUTPUT none none).run w
      = (transfer P n (v - t) VALVE_INPUT VALVE_OUTPUT none none).run
          { dev := { w.dev with valve := 'o' },
            log := w.log ++ [Packet.reportPlunger,
              Packet.reportPlunger, Packet.reportVelocity, Packet.reportValve,
              Packet.valve 'I', Packet.reportStatus, Packet.reportValve,
              Packet.pump (volume_to_step P t), Packet.reportStatus,
              Packet.reportPlunger, Packet.reportVelocity, Packet.reportValve,
              Packet.valve 'O', Packet.reportStatus, Packet.reportValve,
              Packet.deliver (volume_to_step P t), Packet.reportStatus] } := by
  simp only [transfer]
  simp [remaining_volume_run, pump_run_valve_switches,
    deliver_run_valve_switches, hmin, hpl, htop, hst, hv, ht0, hguard, hgt,
    M.run_bind, M.run_ite, M.run_pure, List.append_assoc]
  intro hle
  exfalso
  have ht : t = v := by
    rw [← hmin]
    exact min_eq_left hle
  rw [ht] at hgt
  simp at hgt

/-- The last `transfer` round (remainder not positive after the chunk):
pump and deliver the chunk, then return without recursing. -/
theorem transfer_last (P : C3000Params) (n : ℕ) (v t : ℚ) (w : World)
    (hpl : w.dev.plunger = 0)
    (htop : w.dev.topVelocity = P.default_top_velocity)
    (hst : w.dev.status = STATUS_IDLE_ERROR_FREE)
    (hv : w.dev.valve = 'o')
    (hmin : min v P.total_volume = t) (ht0 : ¬ t = 0)
    (hguard : volume_to_step P t ≤ P.number_of_steps)
    (hgt : ¬ (v - t > 0)) :
    (transfer P (n + 1) v VALVE_INPUT VALVE_OUTPUT none none).run w
      = (Except.ok (),
          { dev := { w.dev with valve := 'o' },
            log := w.log ++ [Packet.reportPlunger,
              Packet.reportPlunger, Packet.reportVelocity, Packet.reportValve,
              Packet.valve 'I', Packet.reportStatus, Packet.reportValve,
              Packet.pump (volume_to_step P t), Packet.reportStatus,
              Packet.reportPlunger, Packet.reportVelocity, Packet.reportValve,
              Packet.valve 'O', Packet.reportStatus, Packet.reportValve,
              Packet.deliver (volume_to_step P t), Packet.reportStatus] }) := by
  simp only [transfer]
  simp [remaining_volume_run, pump_run_valve_switches,
    deliver_run_valve_switches, hmin, hpl, htop, hst, hv, ht0, hguard, hgt,
    M.run_bind, M.run_ite, M.run_pure, List.append_assoc]
  intro hlt
  exfalso
  apply hgt
  have ht : t = P.total_volume := by
    rw [← hmin]
    exact min_eq_right hlt.le
  rw [ht]
  linarith

/-- C3: `transfer(volume, from, to)` on a pump whose syringe capacity is
`C` (with `steps_per_ml` derived so that `C * steps_per_ml ≤
number_of_steps`, as `int(number_of_steps / total_volume)` guarantees),
requested volume `2.5 × C`, syringe starting empty: the call decomposes
into exactly 3 pump/deliver round trips with chunk sizes `[C, C, 0.5*C]`
in that order (each chunk being `min(requested remainder,
remainingVolume)`), each pump and each deliver performed with
wait-until-idle (every motion command is immediately followed by a
status poll), and the recursion terminates when the remainder reaches
zero — fuel 3 suffices and the run returns success.  The source and
destination valves are input and output; the device starts at the input
valve with the default velocity set. -/
theorem transfer_capacity_chunking (P : C3000Params) (w : World) (C : ℚ)
    (hC : 0 < C) (htot : P.total_volume = C)
    (hCN : C * (P.steps_per_ml : ℚ) ≤ (P.number_of_steps : ℚ))
    (hspm : 0 ≤ P.steps_per_ml)
    (hpl : w.dev.plunger = 0)
    (htop : w.dev.topVelocity = P.default_top_velocity)
    (hst : w.dev.status = STATUS_IDLE_ERROR_FREE)
    (hv : w.dev.valve = 'i') (hlog : w.log = []) :
    ((transfer P 3 (5/2 * C) VALVE_INPUT VALVE_OUTPUT none none).run w).1
        = Except.ok () ∧
    motionLog ((transfer P 3 (5/2 * C) VALVE_INPUT VALVE_OUTPUT
        none none).run w).2.log
      = [Packet.pump (volume_to_step P C),
         Packet.deliver (volume_to_step P C),
         Packet.pump (volume_to_step P C),
         Packet.deliver (volume_to_step P C),
         Packet.pump (volume_to_step P (1/2 * C)),
         Packet.deliver (volume_to_step P (1/2 * C))] ∧
    motionsAwaited ((transfer P 3 (5/2 * C) VALVE_INPUT VALVE_OUTPUT
        none none).run w).2.log = true := by
  have hg1 : volume_to_step P C ≤ P.number_of_steps := pyRound_le_int _ _ hCN
  have hspmQ : (0 : ℚ) ≤ (P.steps_per_ml : ℚ) := by exact_mod_cast hspm
  have hCspm : (0 : ℚ) ≤ C * (P.steps_per_ml : ℚ) := mul_nonneg hC.le hspmQ
  have hg2 : volume_to_step P (1/2 * C) ≤ P.number_of_steps := by
    apply pyRound_le_int
    have : (1/2 * C) * (P.steps_per_ml : ℚ) = 1/2 * (C * P.steps_per_ml) := by
      ring
    rw [this]
    linarith
  have hhalf : (5/2 * C - C - C : ℚ) = 1/2 * C := by ring
  have hg3 : volume_to_step P (5/2 * C - C - C) ≤ P.number_of_steps := by
    rw [show (5/2 * C - C - C : ℚ) = 1/2 * C from hhalf]
    exact hg2
  have hmin1 : min (5/2 * C) P.total_volume = C := by
    rw [htot]
    exact min_eq_right (by linarith)
  have hmin2 : min (5/2 * C - C) P.total_volume = C := by
    rw [htot]
    exact min_eq_right (by linarith)
  have hmin3 : min (5/2 * C - C - C) P.total_volume = 5/2 * C - C - C := by
    rw [htot]
    exact min_eq_left (by linarith)
  have hgt1 : 5/2 * C - C > 0 := by linarith
  have hgt2 : 5/2 * C - C - C > 0 := by linarith
  have hgt3 : ¬ (5/2 * C - C - C - (5/2 * C - C - C) > 0) := by simp
  have hC0 : ¬ (C = 0) := hC.ne'
  have h3c : ¬ (5/2 * C - C - C = 0) := by
    intro h
    rw [hhalf] at h
    have : C = 0 := by linarith
    exact hC0 this
  have e1 := transfer_round_first P 2 (5/2 * C) C w hpl htop hst hv hmin1
    hC0 hg1 hgt1
  have e2 := transfer_round_later P 1 (5/2 * C - C) C
    { dev := { w.dev with valve := 'o' },
      log := w.log ++ [Packet.reportPlunger,
        Packet.reportPlunger, Packet.reportVelocity, Packet.reportValve,
        Packet.pump (volume_to_step P C), Packet.reportStatus,
        Packet.reportPlunger, Packet.reportVelocity, Packet.reportValve,
        Packet.valve 'O', Packet.reportStatus, Packet.reportValve,
        Packet.deliver (volume_to_step P C), Packet.reportStatus] }
    (by simp [hpl]) (by simp [htop]) (by simp [hst]) (by simp)
    hmin2 hC0 hg1 hgt2
  have e3 := transfer_last P 0 (5/2 * C - C - C) (5/2 * C - C - C)
    { dev := { w.dev with valve := 'o' },
      log := w.log ++ [Packet.reportPlunger,
        Packet.reportPlunger, Packet.reportVelocity, Packet.reportValve,
        Packet.pump (volume_to_step P C), Packet.reportStatus,
        Packet.reportPlunger, Packet.reportVelocity, Packet.reportValve,
        Packet.valve 'O', Packet.reportStatus, Packet.reportValve,
        Packet.deliver (volume_to_step P C), Packet.reportStatus,
        Packet.reportPlunger,
        Packet.reportPlunger, Packet.reportVelocity, Packet.reportValve,
        Packet.valve 'I', Packet.reportStatus, Packet.reportValve,
        Packet.pump (volume_to_step P C), Packet.reportStatus,
        Packet.reportPlunger, Packet.reportVelocity, Packet.reportValve,
        Packet.valve 'O', Packet.reportStatus, Packet.reportValve,
        Packet.deliver (volume_to_step P C), Packet.reportStatus] }
    (by simp [hpl]) (by simp [htop]) (by simp [hst]) (by simp)
    hmin3 h3c hg3 hgt3
  simp only [List.append_assoc, List.cons_append, List.nil_append] at e1 e2 e3
  have hfuel : (transfer P 3 (5/2 * C) VALVE_INPUT VALVE_OUTPUT
      none none).run w
    = (transfer P (2 + 1) (5/2 * C) VALVE_INPUT VALVE_OUTPUT
        none none).run w := rfl
  rw [hfuel, e1, show (2 : ℕ) = 1 + 1 from rfl, e2,
    show (1 : ℕ) = 0 + 1 from rfl, e3]
  refine ⟨rfl, ?_, ?_⟩
  · simp [motionLog, hlog, hhalf]
  · simp [motionsAwaited, hlog, hhalf]

/-- Witness for C3: the 5 ml mode-2 pump (`steps_per_ml = 4800`),
syringe empty, transferring 12.5 ml = 2.5 × capacity: three pump/deliver
round trips of 24000, 24000 and 12000 steps (5, 5 and 2.5 ml), each
motion followed by its wait-until-idle status poll. -/
theorem transfer_capacity_chunking_witness :
    ((0 : ℚ) < 5 ∧ samplePump.total_volume = 5 ∧
      (5 : ℚ) * (samplePump.steps_per_ml : ℚ)
        ≤ (samplePump.number_of_steps : ℚ) ∧
      0 ≤ samplePump.steps_per_ml ∧ startWorld.dev.plunger = 0 ∧
      startWorld.dev.topVelocity = samplePump.default_top_velocity ∧
      startWorld.dev.status = STATUS_IDLE_ERROR_FREE ∧
      startWorld.dev.valve = 'i' ∧ startWorld.log = []) ∧
    (((transfer samplePump 3 (5/2 * 5) VALVE_INPUT VALVE_OUTPUT
        none none).run startWorld).1 = Except.ok () ∧
      motionLog ((transfer samplePump 3 (5/2 * 5) VALVE_INPUT VALVE_OUTPUT
          none none).run startWorld).2.log
        = [Packet.pump (volume_to_step samplePump 5),
           Packet.deliver (volume_to_step samplePump 5),
           Packet.pump (volume_to_step samplePump 5),
           Packet.deliver (volume_to_step samplePump 5),
           Packet.pump (volume_to_step samplePump (1/2 * 5)),
           Packet.deliver (volume_to_step samplePump (1/2 * 5))] ∧
      motionsAwaited ((transfer samplePump 3 (5/2 * 5) VALVE_INPUT
          VALVE_OUTPUT none none).run startWorld).2.log = true) :=
  ⟨⟨by decide, rfl, by with_unfolding_all decide, by decide, rfl, rfl, rfl,
    rfl, rfl⟩,
   transfer_capacity_chunking samplePump startWorld 5 (by decide) rfl
     (by with_unfolding_all decide) (by decide) rfl rfl rfl rfl rfl⟩

/-! ## C5: set_top_velocity transaction pattern -/

/-- Helper: when the device never applies the velocity command and its
reported velocity differs from the requested one, the `secure=True` loop
performs `m` rounds of read-then-set (two transactions each) and then
raises `ControllerRepeatedError`. -/
theorem set_top_velocity_never_applies (P : C3000Params) (v : ℤ)
    (hmode : P.micro_step_mode = MICRO_STEP_MODE_2) (h1 : 1 ≤ v)
    (h2 : v ≤ MAX_TOP_VELOCITY_MICRO_STEP_MODE_2) :
    ∀ (m : ℕ) (w : World), w.dev.appliesVelocity = false →
      w.dev.topVelocity ≠ v →
      (set_top_velocity P v m true).run w
        = (Except.error (PyErr.repeatedError P.name),
           { dev := w.dev,
             log := w.log
               ++ (List.replicate m [Packet.reportVelocity,
                     Packet.setVelocity v]).flatten }) := by
  intro m
  induction m with
  | zero =>
    intro w _ _
    simp [set_top_velocity, M.run_throw]
  | succ k ih =>
    intro w happl hne
    have hmode0 : ¬ P.micro_step_mode = MICRO_STEP_MODE_0 := by
      rw [hmode]
      decide
    have hrange : 1 ≤ v ∧ v ≤ MAX_TOP_VELOCITY_MICRO_STEP_MODE_2 := ⟨h1, h2⟩
    have hstep : ∀ d : Device, d.appliesVelocity = false →
        d.step (Packet.setVelocity v) = d := by
      intro d hd
      simp [Device.step, hd]
    simp only [set_top_velocity, get_top_velocity,
      check_top_velocity_within_range, M.run_bind, M.run_transact, M.run_get,
      M.run_pure, M.run_throw, M.run_ite, Device.step, hmode, hne, h1, h2,
      happl, MICRO_STEP_MODE_0, MICRO_STEP_MODE_2]
    norm_num
    rw [if_neg (fun hc => by rw [happl] at hc; exact Bool.false_ne_true hc)]
    rw [ih { dev := w.dev,
             log := w.log ++ [Packet.reportVelocity, Packet.setVelocity v] }
        happl hne]
    simp [List.replicate_succ, List.append_assoc]

/-- Counterexample to C5: with `secure=False` and a device whose reported
velocity (4000) differs from the requested one (5000), `set_top_velocity`
issues TWO write-and-read transactions (the velocity query of the
verification step, then the set command), not "exactly one transaction
regardless of whether the device velocity already matches". -/
theorem set_top_velocity_two_transactions_counterexample :
    (set_top_velocity samplePump 5000 MAX_REPEAT_OPERATION false).run
        { dev := { idleDevice with topVelocity := 4000 }, log := [] }
      = (Except.ok true,
         { dev := { idleDevice with topVelocity := 5000 },
           log := [Packet.reportVelocity, Packet.setVelocity 5000] }) ∧
    ([Packet.reportVelocity, Packet.setVelocity 5000] : List Packet).length ≠ 1 :=
  ⟨rfl, by decide⟩

/-- C5 amended: `set_top_velocity` always verifies first by reading the
velocity.  With `secure=False` it issues exactly one transaction (the
read) when the device already matches, returning `True` without any set
command; otherwise exactly two (read then set), returning `True` without
re-verifying.  With `secure=True` it loops: each round reads and, on
mismatch, re-issues the set command (two transactions per round),
returning `True` as soon as a read matches; after `maxAttempts` mismatched
rounds (`2 * maxAttempts` transactions) it raises
`ControllerRepeatedError`. -/
theorem set_top_velocity_secure_semantics (P : C3000Params) (w : World)
    (v : ℤ) (n : ℕ) :
    (w.dev.topVelocity = v →
      ∀ secure : Bool, (set_top_velocity P v (n + 1) secure).run w
        = (Except.ok true,
           { dev := w.dev, log := w.log ++ [Packet.reportVelocity] })) ∧
    (w.dev.topVelocity ≠ v → P.micro_step_mode = MICRO_STEP_MODE_2 →
      1 ≤ v → v ≤ MAX_TOP_VELOCITY_MICRO_STEP_MODE_2 →
      (set_top_velocity P v (n + 1) false).run w
        = (Except.ok true,
           { dev := w.dev.step (Packet.setVelocity v),
             log := w.log ++ [Packet.reportVelocity, Packet.setVelocity v] })) ∧
    (w.dev.appliesVelocity = false → w.dev.topVelocity ≠ v →
      P.micro_step_mode = MICRO_STEP_MODE_2 → 1 ≤ v →
      v ≤ MAX_TOP_VELOCITY_MICRO_STEP_MODE_2 →
      ∀ m : ℕ, (set_top_velocity P v m true).run w
        = (Except.error (PyErr.repeatedError P.name),
           { dev := w.dev,
             log := w.log
               ++ (List.replicate m [Packet.reportVelocity,
                     Packet.setVelocity v]).flatten })) := by
  refine ⟨?_, ?_, ?_⟩
  · intro h secure
    simp [set_top_velocity, get_top_velocity, M.run_bind, M.run_transact,
      M.run_get, M.run_pure, M.run_ite, Device.step, h]
  · intro hne hmode h1 h2
    simp only [set_top_velocity, get_top_velocity,
      check_top_velocity_within_range, M.run_bind, M.run_transact, M.run_get,
      M.run_pure, M.run_throw, M.run_ite, Device.step, hmode, hne, h1, h2,
      MICRO_STEP_MODE_0, MICRO_STEP_MODE_2]
    norm_num [List.append_assoc]
  · intro happl hne hmode h1 h2 m
    exact set_top_velocity_never_applies P v hmode h1 h2 m w happl hne

/-- Witness for the amended C5: a matching device gives one transaction;
a mismatched device with `secure=False` gives read-then-set; a mismatched
device that never applies the command exhausts 2 `secure=True` rounds and
raises `ControllerRepeatedError` with 4 transactions logged. -/
theorem set_top_velocity_secure_semantics_witness :
    ((set_top_velocity samplePump 5000 (9 + 1) true).run
        { dev := { idleDevice with topVelocity := 5000 }, log := [] }
      = (Except.ok true,
         { dev := { idleDevice with topVelocity := 5000 },
           log := [Packet.reportVelocity] })) ∧
    ((set_top_velocity samplePump 5000 (9 + 1) false).run
        { dev := { idleDevice with topVelocity := 4000 }, log := [] }
      = (Except.ok true,
         { dev := ({ idleDevice with topVelocity := 4000 } : Device).step
             (Packet.setVelocity 5000),
           log := [Packet.reportVelocity, Packet.setVelocity 5000] })) ∧
    ((set_top_velocity samplePump 5000 2 true).run
        { dev := { idleDevice with topVelocity := 4000, appliesVelocity := false },
          log := [] }
      = (Except.error (PyErr.repeatedError (samplePump.name)),
         { dev := { idleDevice with topVelocity := 4000, appliesVelocity := false },
           log := (List.replicate 2 [Packet.reportVelocity,
                     Packet.setVelocity 5000]).flatten })) :=
  ⟨(set_top_velocity_secure_semantics samplePump
      { dev := { idleDevice with topVelocity := 5000 }, log := [] }
      5000 9).1 rfl true,
   (set_top_velocity_secure_semantics samplePump
      { dev := { idleDevice with topVelocity := 4000 }, log := [] }
      5000 9).2.1 (by decide) rfl (by decide) (by decide),
   (set_top_velocity_secure_semantics samplePump
      { dev := { idleDevice with topVelocity := 4000, appliesVelocity := false },
        log := [] }
      5000 9).2.2 rfl (by decide) rfl (by decide) (by decide) 2⟩

/-! ## C4: volume/step round-trip quantization bound -/

/-- C4: for every volume `v` with `0 ≤ v ≤ totalVolume`,
`|stepsToVolume (volumeToSteps v) - v| ≤ 0.5 / stepsPerMl`, where
`volumeToSteps v = round (v * stepsPerMl)` and
`stepsToVolume s = s / stepsPerMl` (exact-arithmetic reading of the
rounding bound). -/
theorem volume_step_roundtrip_bound (P : C3000Params) (v : ℚ)
    (hspm : 0 < P.steps_per_ml) (_h0 : 0 ≤ v) (_h1 : v ≤ P.total_volume) :
    |step_to_volume P (volume_to_step P v) - v| ≤ (1/2) / P.steps_per_ml := by
  have hs : (0 : ℚ) < (P.steps_per_ml : ℚ) := by exact_mod_cast hspm
  have hne : (P.steps_per_ml : ℚ) ≠ 0 := ne_of_gt hs
  unfold step_to_volume volume_to_step
  have key : ((pyRound (v * P.steps_per_ml) : ℚ)) / P.steps_per_ml - v
      = ((pyRound (v * P.steps_per_ml) : ℚ) - v * P.steps_per_ml) / P.steps_per_ml := by
    field_simp
    ring
  rw [key, abs_div, abs_of_pos hs]
  gcongr
  exact abs_pyRound_sub_le (v * P.steps_per_ml)

/-! ## C7: the bus lock is released on all paths -/

/-- C7: for every bus transaction (`write_and_readline`), the bus lock is
fully released before the call returns or raises: on the success path the
response is returned with the lock free, and on the read-timeout path
`PumpIOTimeOutError` is raised with the lock free (no lock leakage on the
error path). -/
theorem write_and_readline_releases_lock (packet : DTInstructionPacket)
    (line : List Nat) (s : PumpIOState) :
    ( PumpIO.write_and_readline packet line s).2.lockHeld = false ∧
    (line ≠ [] →
      ( PumpIO.write_and_readline packet line s).1 = Except.ok line) ∧
    (line = [] →
      ( PumpIO.write_and_readline packet line s).1 = Except.error PyErr.timeout) := by
  by_cases h : line = [] <;>
    simp [ PumpIO.write_and_readline, PumpIO.readline, h]

/-- Witness for C7: a concrete transaction with a response line and one
with a timeout, both leaving the lock free. -/
theorem write_and_readline_releases_lock_witness :
    (( PumpIO.write_and_readline (C3000Protocol.forge_pump_packet ⟨":"⟩ 1200)
        [47] ⟨false, [0], []⟩).2.lockHeld = false ∧
      ( PumpIO.write_and_readline (C3000Protocol.forge_pump_packet ⟨":"⟩ 1200)
        [47] ⟨false, [0], []⟩).1 = Except.ok [47]) ∧
    (( PumpIO.write_and_readline (C3000Protocol.forge_pump_packet ⟨":"⟩ 1200)
        [] ⟨false, [0], []⟩).2.lockHeld = false ∧
      ( PumpIO.write_and_readline (C3000Protocol.forge_pump_packet ⟨":"⟩ 1200)
        [] ⟨false, [0], []⟩).1 = Except.error PyErr.timeout) :=
  ⟨⟨(write_and_readline_releases_lock _ [47] _).1,
    (write_and_readline_releases_lock _ [47] _).2.1 (by decide)⟩,
   ⟨(write_and_readline_releases_lock _ [] _).1,
    (write_and_readline_releases_lock _ [] _).2.2 rfl⟩⟩

/-! ## C1: is_idle status mapping -/

/-- C1: for every status-report transaction, `is_idle` maps the returned
status byte as follows: idle-error-free (backtick) returns `True`,
busy-error-free (`'@'`) returns `False`, any of the 8 defined
hardware-error codes (idle or busy variant) raises `PumpHWError` carrying
that fault code (the lower-cased status byte, i.e. the code of the fault
kind) and the pump name, and any other status byte raises the
unrecognized-status error (`ValueError`); in particular status `'i'`
(idle, plunger overload) raises `PumpHWError` with code `'i'`, never
returning a boolean.  Each branch performs exactly the one status-report
transaction. -/
theorem is_idle_status_mapping (P : C3000Params) (w : World) :
    (w.dev.status = STATUS_IDLE_ERROR_FREE →
      (is_idle P).run w
        = (Except.ok true, { dev := w.dev, log := w.log ++ [Packet.reportStatus] })) ∧
    (w.dev.status = STATUS_BUSY_ERROR_FREE →
      (is_idle P).run w
        = (Except.ok false, { dev := w.dev, log := w.log ++ [Packet.reportStatus] })) ∧
    (w.dev.status ∈ ERROR_STATUSES_IDLE →
      (is_idle P).run w
        = (Except.error (PyErr.hwError w.dev.status P.name),
           { dev := w.dev, log := w.log ++ [Packet.reportStatus] })) ∧
    (w.dev.status ∈ ERROR_STATUSES_BUSY →
      (is_idle P).run w
        = (Except.error (PyErr.hwError (pyLower w.dev.status) P.name),
           { dev := w.dev, log := w.log ++ [Packet.reportStatus] })) ∧
    (w.dev.status ≠ STATUS_IDLE_ERROR_FREE →
      w.dev.status ≠ STATUS_BUSY_ERROR_FREE →
      w.dev.status ∉ ERROR_STATUSES_IDLE →
      w.dev.status ∉ ERROR_STATUSES_BUSY →
      (is_idle P).run w
        = (Except.error PyErr.valueError,
           { dev := w.dev, log := w.log ++ [Packet.reportStatus] })) ∧
    (w.dev.status = 'i' →
      (is_idle P).run w
        = (Except.error (PyErr.hwError 'i' P.name),
           { dev := w.dev, log := w.log ++ [Packet.reportStatus] })) := by
  have hrun : (is_idle P).run w
      = (isIdleResult P w.dev.status,
         { dev := w.dev, log := w.log ++ [Packet.reportStatus] }) := by
    simp only [is_idle, isIdleResult, M.run_bind, M.run_transact,
      M.run_get, M.run_pure, M.run_throw, M.run_ite, Device.step]
    split_ifs <;> rfl
  refine ⟨?_, ?_, ?_, ?_, ?_, ?_⟩
  · intro h
    rw [hrun, h]
    rfl
  · intro h
    rw [hrun, h]
    rfl
  · intro h
    simp only [ERROR_STATUSES_IDLE, List.mem_cons, List.not_mem_nil,
      or_false] at h
    rcases h with h|h|h|h|h|h|h|h <;> rw [hrun, h] <;> rfl
  · intro h
    simp only [ERROR_STATUSES_BUSY, List.mem_cons, List.not_mem_nil,
      or_false] at h
    rcases h with h|h|h|h|h|h|h|h <;> rw [hrun, h] <;> rfl
  · intro h1 h2 h3 h4
    rw [hrun]
    simp [isIdleResult, h1, h2, h3, h4]
  · intro h
    rw [hrun, h]
    rfl

/-- Witness for C1: a device reporting status `'i'` makes `is_idle` raise
`PumpHWError` with code `'i'` and the pump's name, after the one
status-report transaction. -/
theorem is_idle_status_mapping_witness :
    (is_idle samplePump).run
        ⟨{ plunger := 0, topVelocity := 6000, status := 'i', valve := 'i',
           appliesVelocity := true }, []⟩
      = (Except.error (PyErr.hwError 'i' (samplePump.name)),
         ⟨{ plunger := 0, topVelocity := 6000, status := 'i', valve := 'i',
            appliesVelocity := true }, [Packet.reportStatus]⟩) :=
  (is_idle_status_mapping samplePump
    ⟨{ plunger := 0, topVelocity := 6000, status := 'i', valve := 'i',
       appliesVelocity := true }, []⟩).2.2.2.2.2 rfl

/-! ## C8: address table and pump-packet encoding -/

/-- C8: address table lookup for switch `'9'` yields address `':'`, and
encoding a Pump command with operand `1200` to that address with Execute
appended produces exactly the byte string `"/:P1200R\r"`
(START + address + opcode+operand + execute + STOP). -/
theorem switch9_pump1200_encoding :
    C3000SwitchToAddress.lookup ("9") = some (":") ∧
    (C3000Protocol.forge_pump_packet ⟨":"⟩ 1200).to_string
      = strEncode (("/:P1200R\x0d").toList) := by
  constructor
  · decide
  · decide

/-! ## C9: response decoding never raises? -/

/-- Counterexample to C9: the raw byte input `b"/\r"` (bytes `[47, 13]`)
is perfectly valid text, yet `DTStatus(b"/\r").decode()` raises
`IndexError` (the guarding `try/except IndexError` is commented out in
dtprotocol.py): after stripping the trailing `'\r'` and the leading
`'/'` the text is empty and `info[0]` raises.  So decode does not, for
every raw byte input, return a triple or the soft `None` result. -/
theorem dtstatus_decode_raises_counterexample :
    DTStatus.decodeBytes [47, 13] = Except.error PyErr.indexError := rfl

/-- C9 amended: `decode` returns the soft `"cannot decode"` result
(`None`) exactly when the input bytes are not valid text, returns the
(address, status, payload) triple when the stripped text has at least 2
characters, and raises `IndexError` (rather than returning) when the
stripped text is shorter than 2 characters. -/
theorem dtstatus_decode_amended (raw : List Nat) :
    (utf8Decode raw = none → DTStatus.decodeBytes raw = Except.ok none) ∧
    (∀ r, utf8Decode raw = some r →
      (∀ a s d, DTStatus.info r = a :: s :: d →
        DTStatus.decodeBytes raw = Except.ok (some (a, s, d))) ∧
      (DTStatus.info r = [] ∨ (∃ a, DTStatus.info r = [a]) →
        DTStatus.decodeBytes raw = Except.error PyErr.indexError)) := by
  constructor
  · intro h
    simp [DTStatus.decodeBytes, DTStatus.responseOf, h, DTStatus.decode]
  · intro r hr
    constructor
    · intro a s d hinfo
      simp [DTStatus.decodeBytes, DTStatus.responseOf, hr, DTStatus.decode, hinfo]
    · intro hshort
      rcases hshort with h | ⟨a, h⟩ <;>
        simp [DTStatus.decodeBytes, DTStatus.responseOf, hr, DTStatus.decode, h]

/-- Witness for the amended C9 at two concrete raw inputs: `b"/0iab"`,
valid text whose stripped form is `"0iab"`, decoded to the triple
`('0', 'i', "ab")`; and `b"/a\x1c"`, valid text whose trailing U+001C is
whitespace for `str.rstrip()`, so the stripped text is the single
character `'a'` and decode raises `IndexError`. -/
theorem dtstatus_decode_amended_witness :
    (DTStatus.decodeBytes (strEncode (("/0iab").toList))
      = Except.ok (some ('0', 'i', ['a', 'b']))) ∧
    DTStatus.decodeBytes [47, 97, 28] = Except.error PyErr.indexError :=
  ⟨((dtstatus_decode_amended (strEncode (("/0iab").toList))).2
      (("/0iab").toList) (by rfl)).1 '0' 'i' ['a', 'b'] (by rfl),
   ((dtstatus_decode_amended [47, 97, 28]).2
      ([ '/', 'a', '\x1c']) (by rfl)).2 (Or.inr ⟨'a', by rfl⟩)⟩

/-! ## C10: forge_packet purity and list mutation -/

/-- Counterexample to C10: `forge_packet` appends the Execute command to
the caller-supplied command list in place (`dtcommands.append(...)`), so
calling it twice with the *same* list object yields two different
packets; the second contains two Execute commands, not one.  The second
component of the embedded `forge_packet` is the caller's list as left
after the call, so threading it into the second call reproduces the
aliasing. -/
theorem forge_packet_mutation_counterexample :
    ((C3000Protocol.forge_packet ⟨":"⟩
        (DTCommandsArg.list [pumpCmd1200]) true).1
      ≠ (C3000Protocol.forge_packet ⟨":"⟩
          ((C3000Protocol.forge_packet ⟨":"⟩
            (DTCommandsArg.list [pumpCmd1200]) true).2) true).1) ∧
    countExecute ((C3000Protocol.forge_packet ⟨":"⟩
        ((C3000Protocol.forge_packet ⟨":"⟩
          (DTCommandsArg.list [pumpCmd1200]) true).2) true).1) = 2 := by
  constructor
  · decide
  · decide

/-- C10 amended: `forge_packet` performs no I/O and is a pure function of
its arguments (definitional in this embedding), and two calls on *equal
but fresh* command lists (none of whose commands is Execute) yield
identical packets, each containing exactly one Execute command; but the
function appends Execute to the caller's list in place, so after the
call the caller's list has grown by the Execute command, and reusing the
same list object is not supported. -/
theorem forge_packet_fresh_lists (proto : C3000Protocol) (cs : List DTCommand)
    (h : ∀ c ∈ cs, c ≠ DTCommand.make CMD_EXECUTE none) :
    (proto.forge_packet (DTCommandsArg.list cs) true).1
      = (proto.forge_packet (DTCommandsArg.list cs) true).1 ∧
    countExecute (proto.forge_packet (DTCommandsArg.list cs) true).1 = 1 ∧
    (proto.forge_packet (DTCommandsArg.list cs) true).2
      = DTCommandsArg.list (cs ++ [DTCommand.make CMD_EXECUTE none]) := by
  refine ⟨rfl, ?_, by simp [C3000Protocol.forge_packet]⟩
  have hcs : cs.count (DTCommand.make CMD_EXECUTE none) = 0 :=
    List.count_eq_zero.mpr (fun hmem => (h _ hmem) rfl)
  simp [C3000Protocol.forge_packet, countExecute, DTInstructionPacket.make,
    List.count_append, hcs]

/-- Witness for the amended C10: the pump command list `[P1200]` holds no
Execute command; the forged packet holds exactly one. -/
theorem forge_packet_fresh_lists_witness :
    (∀ c ∈ [pumpCmd1200], c ≠ DTCommand.make CMD_EXECUTE none) ∧
    countExecute ((C3000Protocol.forge_packet ⟨":"⟩
      (DTCommandsArg.list [pumpCmd1200]) true).1) = 1 :=
  ⟨by decide, (forge_packet_fresh_lists ⟨":"⟩ [pumpCmd1200] (by decide)).2.1⟩

/-- Witness for C4 at a concrete pump (total volume 5 ml, mode 2,
`steps_per_ml = 4800`) and `v = 2` ml. -/
theorem volume_step_roundtrip_bound_witness :
    0 < samplePump.steps_per_ml ∧ (0 : ℚ) ≤ 2 ∧
    (2 : ℚ) ≤ samplePump.total_volume ∧
    |step_to_volume samplePump (volume_to_step samplePump 2) - 2|
      ≤ (1/2) / samplePump.steps_per_ml :=
  ⟨by decide, by decide, by decide,
    volume_step_roundtrip_bound samplePump 2 (by decide) (by decide) (by decide)⟩

end Pycont

